import Mathlib

/-!
Verification development for the websearch repository (src/streamlite.py).

The Python source is shallowly embedded: each provider function becomes a
Lean function over an explicit environment of oracles.  A call that may
raise in Python is an oracle returning `Except PyExn _`; a Python
`try/except` becomes a `match` on that `Except`.  The overall provider
functions return `Except PyExn _` so that "no exception escapes" is a
provable statement, not a typing artifact.
-/

namespace WebSearch

/-- A Python exception, as observed by the handlers in the source:
`requests.exceptions.ConnectionError` is caught by class (the
`connectionError` flag), and the generic handler reads `type(e).__name__`
(`typeName`) and `str(e)` (`msg`). -/
structure PyExn where
  connectionError : Bool
  typeName : String
  msg : String
deriving DecidableEq

/-- Python truthiness of an optional string (`None` and `""` are falsy). -/
def strTruthy : Option String → Bool
  | none => false
  | some s => s ≠ ""

/- ---------------------------------------------------------------------
Provider A (OpenAI agentic search): response data model, streamlite.py
lines 66-94.  Attribute-presence probing (`hasattr`) is embedded as
`Option` fields; items whose `type` is neither `message` nor
`web_search_call` are the `otherItem` constructor.
--------------------------------------------------------------------- -/

/-- An annotation attached to an `output_text` content item; the source
keeps only those whose type field equals url_citation (lines 83-88). -/
inductive Annot where
  | url_citation (url : String) (title : String)
  | otherAnn
deriving DecidableEq

/-- A content item of a message output item.  `output_text` carries its
text and, when present, its annotations (the hasattr check of line 82 is
the `Option`). -/
inductive ContentItem where
  | output_text (text : String) (annots : Option (List Annot))
  | otherContent
deriving DecidableEq

/-- An output item of the response (the loop of line 73).  A `message` may lack
the `content` attribute (line 76); a `web_search_call` may lack `action`,
and its action may lack `queries` (line 93), hence the nested `Option`s. -/
inductive OutputItem where
  | message (content : Option (List ContentItem))
  | web_search_call (queries : Option (Option (List String)))
  | otherItem
deriving DecidableEq

/-- The upstream response: its ordered `output` items.  The `usage`
object read at lines 97-103 is omitted because the computed `usage_info`
is never returned (lines 109-110 are commented out in the source). -/
structure Response where
  output : List OutputItem
deriving DecidableEq

/-- A `{url, title}` source entry appended at lines 85-88. -/
structure Source where
  url : String
  title : String
deriving DecidableEq

/-- The mutable locals of the parsing loop, lines 67-70. -/
structure ParseState where
  answer : String
  sources : List Source
  search_queries : List String
  web_search_count : Nat
deriving DecidableEq

/-- Lines 77-88: one iteration of the inner `for content_item in
item.content` loop. -/
def processContentItem (st : ParseState) : ContentItem → ParseState
  | .output_text text annots =>
    let st := { st with answer := text }
    match annots with
    | none => st
    | some l =>
      { st with sources :=
          st.sources ++ l.filterMap (fun a =>
            match a with
            | .url_citation u t => some ⟨u, t⟩
            | .otherAnn => none) }
  | .otherContent => st

/-- Lines 73-94: one iteration of the outer `for item in response.output`
loop (the two `if` tests on `item.type` are mutually exclusive since a
Python object has a single `type` value). -/
def processItem (st : ParseState) : OutputItem → ParseState
  | .message content =>
    match content with
    | none => st
    | some items => items.foldl processContentItem st
  | .web_search_call queries =>
    let st := { st with web_search_count := st.web_search_count + 1 }
    match queries with
    | some (some qs) => { st with search_queries := st.search_queries ++ qs }
    | _ => st
  | .otherItem => st

/-- The whole parsing loop, from the initial locals of lines 67-70. -/
def parseResult (response : Response) : ParseState :=
  response.output.foldl processItem ⟨"", [], [], 0⟩

/- ---------------------------------------------------------------------
Provider A: the request and the operation itself, lines 9-121.
--------------------------------------------------------------------- -/

/-- Line 15-28: the fixed system instructions string. -/
def system_instructions : String :=
  "You are a helpful research assistant that answers questions using web search.\n\n" ++
  "Your process:\n" ++
  "1. Analyze the user\x27s question to determine what information needs to be searched on the web\n" ++
  "2. Use the web_search tool to find relevant and up-to-date information\n" ++
  "3. Extract key information from the web search results\n" ++
  "4. Synthesize the information to provide a clear, accurate, and comprehensive answer\n\n" ++
  "Guidelines:\n" ++
  "- Use web_search to find current, factual information relevant to the user\x27s query\n" ++
  "- Base your answer solely on the information retrieved from web search\n" ++
  "- If the web search doesn\x27t provide sufficient information, indicate that in your response\n" ++
  "- Provide a well-structured answer that directly addresses the user\x27s question\n" ++
  "- Cite sources when relevant information is found"

/-- The request built by `client.responses.create(...)` at lines 48-64.
`tools` holds the `type` field of each tool dict (line 11-13 declares
`[{"type": "web_search"}]`). -/
structure AgentRequest where
  model : String
  systemText : String
  userText : String
  tools : List String
  tool_choice : String
  max_tool_calls : Nat
  parallel_tool_calls : Bool
deriving DecidableEq

/-- The concrete request issued for a given user question, lines 48-64. -/
def agentRequest (user_question : String) : AgentRequest :=
  { model := "gpt-5"
    systemText := system_instructions
    userText := user_question
    tools := ["web_search"]
    tool_choice := "auto"
    max_tool_calls := 5
    parallel_tool_calls := false }

/-- The value agent_websearch hands back to the shell: every path but one
returns a dict (modelled by `SearchResult` below); the bare
`return "no key"` at line 34 returns a plain string. -/
structure SearchResult where
  answer : String
  sources : List Source
  search_queries : List String
  web_search_count : Option Nat
  usage : Option (List (String × Nat))
deriving DecidableEq

inductive AgentReturn where
  | strVal (s : String)
  | dict (r : SearchResult)
deriving DecidableEq

/-- The effectful context of agent_websearch: `st.secrets.get` (which can
raise, or return `None` when the key is absent) and the network call
`client.responses.create` (which can raise).  Constructing the `OpenAI`
client at line 45 only stores the key, so it is modelled as pure. -/
structure AgentEnv where
  secret : Except PyExn (Option String)
  call : AgentRequest → Except PyExn Response

/-- Lines 9-121, `agent_websearch`.  The returned list records every
request passed to `client.responses.create`, so that the configuration of
issued requests is observable.  The dict literals at lines 37-43, 105-111
and 115-121 fix which keys each returned dict carries: the success dict
has no `web_search_count`/`usage` keys (lines 109-110 are commented out),
the two error dicts carry `web_search_count = 0` and `usage = {}`. -/
def agent_websearch (env : AgentEnv) (user_question : String) :
    Except PyExn (AgentReturn × List AgentRequest) :=
  match env.secret with
  | .error _ => .ok (.strVal "no key", [])
  | .ok api_key =>
    if strTruthy api_key = false then
      .ok (.dict
        { answer := "Error: API key not found. Please configure your OpenAI API key."
          sources := []
          search_queries := []
          web_search_count := some 0
          usage := some [] }, [])
    else
      match env.call (agentRequest user_question) with
      | .ok response =>
        .ok (.dict
          { answer := (parseResult response).answer
            sources := (parseResult response).sources
            search_queries := (parseResult response).search_queries
            web_search_count := none
            usage := none }, [agentRequest user_question])
      | .error e =>
        .ok (.dict
          { answer := "Error during web search: " ++ e.msg
            sources := []
            search_queries := []
            web_search_count := some 0
            usage := some [] }, [agentRequest user_question])

/- ---------------------------------------------------------------------
Provider B (Firecrawl direct search), lines 124-159.
--------------------------------------------------------------------- -/

/-- A result metadata object; each field may be `None`. -/
structure FcMeta where
  title : Option String
  source_url : Option String
  url : Option String
deriving DecidableEq

/-- One upstream result.  `mdAttr` embeds the hasattr markdown check
(outer `Option`) and the possibly-`None` attribute value (inner
`Option`); `metadata` may be `None`. -/
structure FcResult where
  mdAttr : Option (Option String)
  metadata : Option FcMeta
deriving DecidableEq

/-- The upstream response object; `web` may be `None`. -/
structure FcResponse where
  web : Option (List FcResult)
deriving DecidableEq

/-- Line 141: `results.web if results.web else []` (a present-but-empty
list and an absent list both give `[]`). -/
def fcWebResults (results : FcResponse) : List FcResult :=
  match results.web with
  | some l => l
  | none => []

/-- The parenthesised fallback of line 149:
`r.metadata.url if r.metadata and r.metadata.url else N/A`. -/
def urlFallback (r : FcResult) : String :=
  match r.metadata with
  | some m =>
    match m.url with
    | some u => if u = "" then "N/A" else u
    | none => "N/A"
  | none => "N/A"

/-- Line 148: `r.metadata.title if r.metadata and r.metadata.title else N/A`. -/
def fcTitleExpr (r : FcResult) : String :=
  match r.metadata with
  | some m =>
    match m.title with
    | some t => if t = "" then "N/A" else t
    | none => "N/A"
  | none => "N/A"

/-- Line 149: `r.metadata.source_url if r.metadata and r.metadata.source_url
else (...)`. -/
def fcUrlExpr (r : FcResult) : String :=
  match r.metadata with
  | some m =>
    match m.source_url with
    | some s => if s = "" then urlFallback r else s
    | none => urlFallback r
  | none => urlFallback r

/-- Line 150: `r.markdown if r.markdown else No-content` (only evaluated
on results passing the `hasattr` filter; an absent attribute is mapped to
the same placeholder). -/
def fcMdExpr (r : FcResult) : String :=
  match r.mdAttr with
  | some (some md) => if md = "" then "No content" else md
  | some none => "No content"
  | none => "No content"

/-- Lines 148-150: the f-string block built for one qualifying result. -/
def fcBlock (r : FcResult) : String :=
  "TITLE: " ++ fcTitleExpr r ++
  "\nURL: " ++ fcUrlExpr r ++
  "\nMARKDOWN: " ++ fcMdExpr r ++ "..."

/-- Lines 143-154: formatting of a successful search response. -/
def fcFormat (results : FcResponse) : String :=
  let web_results := fcWebResults results
  if web_results = [] then
    "No results found for your query."
  else
    let context := String.intercalate "\n\n"
      ((web_results.filter (fun r => r.mdAttr.isSome)).map fcBlock)
    if context = "" then "No results found." else context

/-- Line 157: the dedicated `requests.exceptions.ConnectionError` text. -/
def fcConnMsg (e : PyExn) : String :=
  "Connection Error: Unable to connect to Firecrawl API.\n" ++
  "This could be due to:\n" ++
  "  - No internet connection\n" ++
  "  - DNS resolution failure\n" ++
  "  - Firewall or proxy blocking the connection\n\n" ++
  "Original error: " ++ e.msg

/-- Line 159: the generic handler text. -/
def fcGenericMsg (e : PyExn) : String :=
  "Error occurred while searching: " ++ e.typeName ++ "\nDetails: " ++ e.msg

/-- The effectful context of firecrawl_websearch: the secret lookup, and
`Firecrawl(api_key=...)` plus `.search(...)` folded into one fallible call
(any failure of either is caught by the same handlers, lines 156-159). -/
structure FcEnv where
  secret : Except PyExn (Option String)
  search : Option String → String → Except PyExn FcResponse

/-- Lines 133-159 after the secret lookup succeeded: the client call and
either formatting (success) or one of the two handlers. -/
def fcAfterKey (env : FcEnv) (api_key : Option String) (user_question : String) : String :=
  match env.search api_key user_question with
  | .ok results => fcFormat results
  | .error e => if e.connectionError then fcConnMsg e else fcGenericMsg e

/-- Lines 124-159, `firecrawl_websearch`.  The inner `try` around
`st.secrets.get` returns the literal `"no key"` when the lookup raises
(line 132); an absent key (`None`) is passed straight to the client —
there is no missing-key branch in this function. -/
def firecrawl_websearch (env : FcEnv) (user_question : String) :
    Except PyExn String :=
  match env.secret with
  | .error _ => .ok "no key"
  | .ok api_key => .ok (fcAfterKey env api_key user_question)

/- ---------------------------------------------------------------------
Interaction shell, lines 163-230: result formatting (199-207) and
dispatch (194-227).
--------------------------------------------------------------------- -/

/-- Python truthiness of the optional `usage` dict (`{}` is falsy). -/
def dictTruthy : Option (List (String × Nat)) → Bool
  | none => false
  | some d => d ≠ []

/-- A rendering of a Python dict of nat values (only reached when a
truthy `usage` dict is present, which no code path produces). -/
def pyDictRepr (d : List (String × Nat)) : String :=
  "\x7b" ++ String.intercalate ", "
    (d.map (fun p => p.1 ++ ": " ++ toString p.2)) ++ "\x7d"

/-- Line 203: one `- {title}: {url}` source line (both keys are always
present in the dicts built at lines 85-88, so the `.get` defaults
are never used). -/
def sourceLine (s : Source) : String :=
  "- " ++ s.title ++ ": " ++ s.url ++ "\n"

/-- Line 199: the initial `result_text` (the `answer` key is present in
every dict the provider builds, so the `.get` default is never used). -/
def answerSection (r : SearchResult) : String :=
  "Answer:\n" ++ r.answer ++ "\n\n"

/-- Lines 200-203: appended when the sources list is truthy. -/
def sourcesSection (r : SearchResult) : String :=
  if r.sources = [] then ""
  else "Sources:\n" ++ String.join (r.sources.map sourceLine)

/-- Lines 204-205: appended when the search_queries list is truthy. -/
def queriesSection (r : SearchResult) : String :=
  if r.search_queries = [] then ""
  else "\nSearch Queries Used: " ++
    String.intercalate ", " r.search_queries ++ "\n"

/-- Lines 206-207: appended when the usage dict is truthy (never,
on the dicts the code builds: usage is absent or `{}`). -/
def usageSection (r : SearchResult) : String :=
  if dictTruthy r.usage then
    "\nToken Usage: " ++ pyDictRepr (r.usage.getD [])
  else ""

/-- Lines 199-207: the OpenAI-branch display string, built by the four
sequential `+=` steps. -/
def result_text (r : SearchResult) : String :=
  answerSection r ++ sourcesSection r ++ queriesSection r ++ usageSection r

/-- Line 199 applied to the provider return value: a dict is formatted
by `result_text`; the bare string `"no key"` has no `.get` method, so the
shell itself raises `AttributeError` on it. -/
def formatAgent : AgentReturn → Except PyExn String
  | .dict r => .ok (result_text r)
  | .strVal _ => .error ⟨false, "AttributeError", "str object has no attribute get"⟩

/-- Line 223: the placeholder text of the idle result box. -/
def placeholderText : String :=
  "Results will appear here after you enter a query and click Search..."

/-- The two provider environments the shell closes over. -/
structure ShellEnv where
  agentEnv : AgentEnv
  fcEnv : FcEnv

/-- What one rendering of the column-2 block produces: the provider calls
made (provider label and query), whether the empty-query warning is
shown, and the result box content if one is shown. -/
structure ShellView where
  calls : List (String × String)
  warned : Bool
  display : Option String
deriving DecidableEq

/-- Lines 191-227: the column-2 dispatch.  `search_button` is the button
state, `user_query` the text area content (truthy iff non-empty),
`search_provider` the radio value (`"OpenAI"` selects provider A, any
other value falls to the `else:  # Firecrawl` branch, line 208). -/
def render_results (env : ShellEnv) (search_provider : String)
    (search_button : Bool) (user_query : String) :
    Except PyExn ShellView :=
  if search_button = true ∧ user_query ≠ "" then
    if search_provider = "OpenAI" then
      match agent_websearch env.agentEnv user_query with
      | .ok (ret, _) =>
        match formatAgent ret with
        | .ok t => .ok ⟨[("OpenAI", user_query)], false, some t⟩
        | .error e => .error e
      | .error e => .error e
    else
      match firecrawl_websearch env.fcEnv user_query with
      | .ok t => .ok ⟨[("Firecrawl", user_query)], false, some t⟩
      | .error e => .error e
  else if search_button = true ∧ user_query = "" then
    .ok ⟨[], true, none⟩
  else
    .ok ⟨[], false, some placeholderText⟩

/- ---------------------------------------------------------------------
Spec-side definitions, written from the wording of the claims, to be
with the embedded code.
--------------------------------------------------------------------- -/

/-- The url citations carried by one content item, in emission order. -/
def citesOfContent : ContentItem → List Source
  | .output_text _ annots =>
    (annots.getD []).filterMap (fun a =>
      match a with
      | .url_citation u t => some ⟨u, t⟩
      | .otherAnn => none)
  | .otherContent => []

/-- The texts carried by one content item. -/
def textsOfContent : ContentItem → List String
  | .output_text t _ => [t]
  | .otherContent => []

/-- The url citations carried by one output item. -/
def citesOfItem : OutputItem → List Source
  | .message c => (c.getD []).flatMap citesOfContent
  | _ => []

/-- The output_text texts carried by one output item. -/
def textsOfItem : OutputItem → List String
  | .message c => (c.getD []).flatMap textsOfContent
  | _ => []

/-- Every citation annotation attached to textual messages of a response,
in original emission order. -/
def allCitations (response : Response) : List Source :=
  response.output.flatMap citesOfItem

/-- Every output_text text of a response, in emission order. -/
def allTexts (response : Response) : List String :=
  response.output.flatMap textsOfItem

/-- The last element of a list, or a default when there is none. -/
def lastOr (d : String) : List String → String
  | [] => d
  | t :: ts => lastOr t ts

/-- The dict shape of the success path (lines 105-111). -/
def agentSuccessDict (st : ParseState) : SearchResult :=
  { answer := st.answer
    sources := st.sources
    search_queries := st.search_queries
    web_search_count := none
    usage := none }

/-- First truthy string among the listed optional fields, else the
default — the "falling back through ..." reading of the claims. -/
def firstTruthy (dflt : String) : List (Option String) → String
  | [] => dflt
  | o :: rest =>
    match o with
    | some s => if s = "" then firstTruthy dflt rest else s
    | none => firstTruthy dflt rest

/-- The markdown attribute value of a result, when present. -/
def mdValue (r : FcResult) : Option String :=
  match r.mdAttr with
  | some v => v
  | none => none

/-- Modelled from the claim wording of C7: a three-line block — title (or
"N/A"); URL falling back from the canonical source URL through the
secondary url field to "N/A"; markdown content (or "No content") — with a
trailing ellipsis marker. -/
def c7SpecBlock (r : FcResult) : String :=
  "TITLE: " ++ firstTruthy "N/A" [r.metadata.bind FcMeta.title] ++
  "\nURL: " ++ firstTruthy "N/A"
    [r.metadata.bind FcMeta.source_url, r.metadata.bind FcMeta.url] ++
  "\nMARKDOWN: " ++ firstTruthy "No content" [mdValue r] ++ "..."

/-- Whether `p` occurs as a contiguous sublist of `l`. -/
def subOcc (p : List Char) : List Char → Bool
  | [] => p.isEmpty
  | c :: rest => p.isPrefixOf (c :: rest) || subOcc p rest

/-- Whether `p` occurs as a substring of `s`. -/
def hasSubstr (p s : String) : Bool := subOcc p.data s.data

/- ---------------------------------------------------------------------
Helper lemmas.
--------------------------------------------------------------------- -/

lemma lastOr_append (d : String) (l1 l2 : List String) :
    lastOr d (l1 ++ l2) = lastOr (lastOr d l1) l2 := by
  induction l1 generalizing d with
  | nil => rfl
  | cons t ts ih => simpa [lastOr] using ih t

lemma content_fold_sources (l : List ContentItem) (st : ParseState) :
    (l.foldl processContentItem st).sources =
      st.sources ++ l.flatMap citesOfContent := by
  induction l generalizing st with
  | nil => simp
  | cons c cs ih =>
    cases c with
    | output_text t annots =>
      cases annots with
      | none => simp [processContentItem, ih, citesOfContent]
      | some l =>
        simp [processContentItem, ih, citesOfContent, List.append_assoc]
    | otherContent => simp [processContentItem, ih, citesOfContent]

lemma content_fold_answer (l : List ContentItem) (st : ParseState) :
    (l.foldl processContentItem st).answer =
      lastOr st.answer (l.flatMap textsOfContent) := by
  induction l generalizing st with
  | nil => rfl
  | cons c cs ih =>
    cases c with
    | output_text t annots =>
      cases annots with
      | none =>
        simp [processContentItem, textsOfContent, ih, lastOr, List.flatMap]
      | some l =>
        simp [processContentItem, textsOfContent, ih, lastOr, List.flatMap]
    | otherContent => simp [processContentItem, textsOfContent, ih]

lemma item_fold_sources (l : List OutputItem) (st : ParseState) :
    (l.foldl processItem st).sources = st.sources ++ l.flatMap citesOfItem := by
  induction l generalizing st with
  | nil => simp
  | cons i is ih =>
    cases i with
    | message c =>
      cases c with
      | none => simp [processItem, citesOfItem, ih]
      | some items =>
        simp [processItem, citesOfItem, ih, content_fold_sources,
          List.append_assoc]
    | web_search_call qs =>
      rcases qs with _ | (_ | l) <;> simp [processItem, citesOfItem, ih]
    | otherItem => simp [processItem, citesOfItem, ih]

lemma item_fold_answer (l : List OutputItem) (st : ParseState) :
    (l.foldl processItem st).answer =
      lastOr st.answer (l.flatMap textsOfItem) := by
  induction l generalizing st with
  | nil => rfl
  | cons i is ih =>
    cases i with
    | message c =>
      cases c with
      | none => simp [processItem, textsOfItem, ih]
      | some items =>
        simp [processItem, textsOfItem, ih, content_fold_answer, lastOr_append]
    | web_search_call qs =>
      rcases qs with _ | (_ | l) <;> simp [processItem, textsOfItem, ih]
    | otherItem => simp [processItem, textsOfItem, ih]

lemma parse_sources (response : Response) :
    (parseResult response).sources = allCitations response := by
  simp [parseResult, allCitations, item_fold_sources]

lemma parse_answer (response : Response) :
    (parseResult response).answer = lastOr "" (allTexts response) := by
  simp [parseResult, allTexts, item_fold_answer]

lemma str_append_eq_empty_left {b t : String} (h : b ++ t = "") : b = "" := by
  have hd : b.data ++ t.data = ([] : List Char) := by
    simpa using congrArg String.data h
  exact String.ext (List.append_eq_nil.mp hd).1

lemma intercalate_go_exists (s : String) (l : List String) (acc : String) :
    ∃ t : String, String.intercalate.go acc s l = acc ++ t := by
  induction l generalizing acc with
  | nil => exact ⟨"", (String.append_empty acc).symm⟩
  | cons a as ih =>
    obtain ⟨t, ht⟩ := ih (acc ++ s ++ a)
    refine ⟨s ++ a ++ t, ?_⟩
    show String.intercalate.go (acc ++ s ++ a) s as = _
    rw [ht]
    simp [String.append_assoc]

lemma intercalate_cons_ne_empty (s b : String) (bs : List String)
    (hb : b ≠ "") : String.intercalate s (b :: bs) ≠ "" := by
  obtain ⟨t, ht⟩ := intercalate_go_exists s bs b
  simpa [String.intercalate, ht] using fun h => hb (str_append_eq_empty_left h)

lemma fcTitleExpr_eq_spec (r : FcResult) :
    fcTitleExpr r = firstTruthy "N/A" [r.metadata.bind FcMeta.title] := by
  rcases r with ⟨md, _ | ⟨t, su, u⟩⟩
  · rfl
  · rcases t with _ | t <;> rfl

lemma fcUrlExpr_eq_spec (r : FcResult) :
    fcUrlExpr r = firstTruthy "N/A"
      [r.metadata.bind FcMeta.source_url, r.metadata.bind FcMeta.url] := by
  rcases r with ⟨md, _ | ⟨t, su, u⟩⟩
  · rfl
  · rcases su with _ | su <;> rcases u with _ | u <;> rfl

lemma fcMdExpr_eq_spec (r : FcResult) :
    fcMdExpr r = firstTruthy "No content" [mdValue r] := by
  rcases r with ⟨_ | (_ | md), meta⟩ <;> rfl

lemma fcBlock_eq_spec (r : FcResult) : fcBlock r = c7SpecBlock r := by
  rw [fcBlock, c7SpecBlock, fcTitleExpr_eq_spec, fcUrlExpr_eq_spec,
    fcMdExpr_eq_spec]

lemma fcBlock_ne_empty (r : FcResult) : fcBlock r ≠ "" := by
  intro h
  have h1 := congrArg String.length h
  simp only [fcBlock, String.length_append] at h1
  have h7 : ("TITLE: ").length = 7 := rfl
  have h0 : ("" : String).length = 0 := rfl
  omega

/- ---------------------------------------------------------------------
Concrete environments used by counterexamples and witnesses.
--------------------------------------------------------------------- -/

/-- A secret store whose access itself raises (e.g. no secrets file). -/
def storeRaises : Except PyExn (Option String) :=
  Except.error ⟨false, "FileNotFoundError", "No secrets files found"⟩

/-- Agent environment: the secret store access raises. -/
def agentEnvNoStore : AgentEnv := ⟨storeRaises, fun _ => Except.ok ⟨[]⟩⟩

/-- Agent environment: the key is absent (`get` returns `None`). -/
def agentEnvNoKey : AgentEnv := ⟨Except.ok none, fun _ => Except.ok ⟨[]⟩⟩

/-- Agent environment: a key is configured and the upstream call returns
an empty output list. -/
def agentEnvWithKey : AgentEnv :=
  ⟨Except.ok (some "sk"), fun _ => Except.ok ⟨[]⟩⟩

/-- Firecrawl environment: the secret store access raises. -/
def fcEnvStoreRaises : FcEnv := ⟨storeRaises, fun _ _ => Except.ok ⟨none⟩⟩

/-- Firecrawl environment: the key is absent and the upstream call fails
with a non-connection exception. -/
def fcEnvAbsentKey : FcEnv :=
  ⟨Except.ok none,
   fun _ _ => Except.error ⟨false, "AuthenticationError", "Unauthorized"⟩⟩

/-- Firecrawl environment: upstream returns an empty result list. -/
def fcEnvEmptyResp : FcEnv :=
  ⟨Except.ok (some "fk"), fun _ _ => Except.ok ⟨some []⟩⟩

/-- A result without the markdown attribute: it never qualifies. -/
def unqualifiedResult : FcResult :=
  ⟨none, some ⟨some "Paris - Wikipedia", none, none⟩⟩

/-- Firecrawl environment: upstream returns three results, none of which
exposes content. -/
def fcEnvUnqualResp : FcEnv :=
  ⟨Except.ok (some "fk"),
   fun _ _ => Except.ok
     ⟨some [unqualifiedResult, unqualifiedResult, unqualifiedResult]⟩⟩

/-- The two qualifying results of the end-to-end scenario. -/
def parisResult : FcResult :=
  ⟨some (some "Paris is the capital and largest city of France."),
   some ⟨some "Paris - Wikipedia", some "https://en.wikipedia.org/wiki/Paris", none⟩⟩

def franceResult : FcResult :=
  ⟨some (some "France is a country in Western Europe."),
   some ⟨some "France Facts", none, some "https://example.com/france-facts"⟩⟩

/-- Firecrawl environment for the end-to-end scenario. -/
def fcEnvScenario : FcEnv :=
  ⟨Except.ok (some "fk"),
   fun _ _ => Except.ok ⟨some [parisResult, franceResult]⟩⟩

/-- A response with one textual message carrying two url citations, then
a web-search call. -/
def respW : Response :=
  ⟨[OutputItem.message (some
      [ContentItem.output_text "Paris."
        (some [Annot.url_citation "https://a.example" "A",
               Annot.url_citation "https://b.example" "B"])]),
    OutputItem.web_search_call (some (some ["capital of France"]))]⟩

/-- A shell environment for concrete runs. -/
def shellEnvW : ShellEnv := ⟨agentEnvWithKey, fcEnvScenario⟩

/- ---------------------------------------------------------------------
Claim theorems.
--------------------------------------------------------------------- -/

/-- Claim C1: for every query and every behaviour of the secret store and
of the upstream services, neither provider operation lets an exception
escape: both always return a normal (`Except.ok`) result. -/
theorem no_exception_escapes (aenv : AgentEnv) (fenv : FcEnv)
    (q1 q2 : String) :
    (∃ v, agent_websearch aenv q1 = Except.ok v) ∧
    (∃ s, firecrawl_websearch fenv q2 = Except.ok s) := by
  constructor
  · unfold agent_websearch
    rcases aenv.secret with e | k
    · exact ⟨_, rfl⟩
    · dsimp only
      split
      · exact ⟨_, rfl⟩
      · rcases aenv.call (agentRequest q1) with e | resp
        · exact ⟨_, rfl⟩
        · exact ⟨_, rfl⟩
  · unfold firecrawl_websearch
    rcases fenv.secret with e | k
    · exact ⟨_, rfl⟩
    · exact ⟨_, rfl⟩

/-- Claim C3 (code bug): when the credential lookup itself raises,
agent_websearch returns the bare string "no key" (line 34) instead of a
dict, so the `sources` and `search_queries` fields are absent on that
path, contradicting the declared return type of the function
`Dict[str, Any]` and the invariant. -/
theorem agent_secrets_failure_bare_string :
    agent_websearch agentEnvNoStore "capital of France" =
      Except.ok (AgentReturn.strVal "no key", []) := rfl

/-- Claim C5: normalizing a Provider A SearchResult with `answer = X`,
`sources = []` and `search_queries = []` (and no usage key) yields
exactly "Answer:\nX\n\n", with no further sections. -/
theorem normalize_empty_round_trip (X : String) :
    result_text ⟨X, [], [], none, none⟩ = "Answer:\n" ++ X ++ "\n\n" := by
  simp [result_text, answerSection, sourcesSection, queriesSection,
    usageSection, dictTruthy]

/-- Claim C10: the answer returned by the parsing loop is the text of the
last output_text content item (later texts overwrite earlier candidates),
the empty string when no textual message exists, while sources accumulate
the citation annotations of all messages in order. -/
theorem last_text_wins (response : Response) :
    (parseResult response).answer = lastOr "" (allTexts response) ∧
    (parseResult response).sources = allCitations response :=
  ⟨parse_answer response, parse_sources response⟩

/-- The missing-key answer of the agent provider (lines 37-43). -/
def agentKeyMissingAnswer : String :=
  "Error: API key not found. Please configure your OpenAI API key."

/-- Claim C2 counterexample: for the Direct Search provider, an absent
credential (the store returns no value, `fcEnvAbsentKey.secret =
Except.ok none`) is not converted into a missing-key result: the call
proceeds with the absent key and the upstream failure is rendered as the
generic error text, which contains no explanatory string about the
missing key (no occurrence of "key" or "Key" at all). -/
theorem missing_key_cex :
    fcEnvAbsentKey.secret = Except.ok none ∧
    firecrawl_websearch fcEnvAbsentKey "capital of France" =
      Except.ok "Error occurred while searching: AuthenticationError\nDetails: Unauthorized" ∧
    hasSubstr "key"
      "Error occurred while searching: AuthenticationError\nDetails: Unauthorized" = false ∧
    hasSubstr "Key"
      "Error occurred while searching: AuthenticationError\nDetails: Unauthorized" = false :=
  ⟨rfl, rfl, by decide, by decide⟩

/-- Claim C2 amended: the Agentic provider turns an absent credential
into a result whose answer explains the missing key and whose other
fields are empty containers, without raising.  The Direct provider has no
missing-key branch: only a secret-store access failure yields the fixed
text "no key"; an absent credential is passed on to the client and the
call returns whatever the post-lookup path renders.  No exception is
raised in any of these cases. -/
theorem missing_key_handling (aenv : AgentEnv) (fenv fenv2 : FcEnv)
    (q1 q2 q3 : String) (k : Option String) (e : PyExn)
    (ha : aenv.secret = Except.ok k) (hk : strTruthy k = false)
    (hf : fenv.secret = Except.error e)
    (h2 : fenv2.secret = Except.ok none) :
    agent_websearch aenv q1 =
      Except.ok (AgentReturn.dict
        ⟨agentKeyMissingAnswer, [], [], some 0, some []⟩, []) ∧
    firecrawl_websearch fenv q2 = Except.ok "no key" ∧
    firecrawl_websearch fenv2 q3 = Except.ok (fcAfterKey fenv2 none q3) := by
  refine ⟨?_, ?_, ?_⟩
  · simp [agent_websearch, ha, hk, agentKeyMissingAnswer]
  · simp [firecrawl_websearch, hf]
  · simp [firecrawl_websearch, h2]

theorem missing_key_handling_witness :
    (agentEnvNoKey.secret = Except.ok none ∧ strTruthy none = false ∧
     fcEnvStoreRaises.secret = Except.error
       ⟨false, "FileNotFoundError", "No secrets files found"⟩ ∧
     fcEnvAbsentKey.secret = Except.ok none) ∧
    (agent_websearch agentEnvNoKey "q" =
       Except.ok (AgentReturn.dict
         ⟨agentKeyMissingAnswer, [], [], some 0, some []⟩, []) ∧
     firecrawl_websearch fcEnvStoreRaises "q" = Except.ok "no key" ∧
     firecrawl_websearch fcEnvAbsentKey "q" =
       Except.ok (fcAfterKey fcEnvAbsentKey none "q")) :=
  ⟨⟨rfl, rfl, rfl, rfl⟩,
   missing_key_handling agentEnvNoKey fcEnvStoreRaises fcEnvAbsentKey
     "q" "q" "q" none ⟨false, "FileNotFoundError", "No secrets files found"⟩
     rfl rfl rfl rfl⟩

/-- The C4 situation: the provider call reaches the upstream service and
receives a response with zero qualifying (content-exposing) results. -/
def directZeroQualifying (env : FcEnv) (q : String) : Prop :=
  ∃ k resp, env.secret = Except.ok k ∧ env.search k q = Except.ok resp ∧
    (fcWebResults resp).filter (fun r => r.mdAttr.isSome) = []

/-- Claim C4 counterexample: there is no single fixed sentinel string that
the Direct Search provider renders whenever zero results qualify — an
empty upstream list yields "No results found for your query." while a
non-empty list with no qualifying result yields "No results found.". -/
theorem no_results_sentinel_cex :
    ¬ ∃ s : String, ∀ (env : FcEnv) (q : String), q ≠ "" →
        directZeroQualifying env q →
        firecrawl_websearch env q = Except.ok s := by
  rintro ⟨s, h⟩
  have h1 := h fcEnvEmptyResp "capital of France" (by decide)
    ⟨some "fk", ⟨some []⟩, rfl, rfl, rfl⟩
  have h2 := h fcEnvUnqualResp "capital of France" (by decide)
    ⟨some "fk",
     ⟨some [unqualifiedResult, unqualifiedResult, unqualifiedResult]⟩,
     rfl, rfl, by decide⟩
  rw [show firecrawl_websearch fcEnvEmptyResp "capital of France" =
        Except.ok "No results found for your query." from rfl] at h1
  rw [show firecrawl_websearch fcEnvUnqualResp "capital of France" =
        Except.ok "No results found." from rfl] at h2
  rw [Except.ok.injEq] at h1 h2
  exact absurd (h1.trans h2.symm) (by decide)

/-- Claim C4 amended: with zero qualifying results the rendered output is
one of two fixed non-empty sentinels — "No results found for your query."
when the upstream result list is empty, "No results found." when results
exist but none exposes content — and never the empty string. -/
theorem no_results_two_sentinels (env : FcEnv) (k : Option String)
    (q : String) (resp : FcResponse)
    (hs : env.secret = Except.ok k) (hr : env.search k q = Except.ok resp)
    (hz : (fcWebResults resp).filter (fun r => r.mdAttr.isSome) = []) :
    firecrawl_websearch env q =
      Except.ok (if fcWebResults resp = []
        then "No results found for your query."
        else "No results found.") ∧
    firecrawl_websearch env q ≠ Except.ok "" := by
  have hmain : firecrawl_websearch env q = Except.ok (fcFormat resp) := by
    simp [firecrawl_websearch, fcAfterKey, hs, hr]
  have hfmt : fcFormat resp =
      (if fcWebResults resp = [] then "No results found for your query."
       else "No results found.") := by
    rw [fcFormat]
    by_cases hw : fcWebResults resp = []
    · simp [hw]
    · simp [hw, hz, String.intercalate]
  refine ⟨hmain.trans (by rw [hfmt]), ?_⟩
  rw [hmain, hfmt]
  by_cases hw : fcWebResults resp = [] <;> simp [hw]

theorem no_results_two_sentinels_witness :
    (fcEnvUnqualResp.secret = Except.ok (some "fk") ∧
     (fcWebResults
        ⟨some [unqualifiedResult, unqualifiedResult, unqualifiedResult]⟩).filter
        (fun r => r.mdAttr.isSome) = []) ∧
    (firecrawl_websearch fcEnvUnqualResp "capital of France" =
       Except.ok (if fcWebResults
           ⟨some [unqualifiedResult, unqualifiedResult, unqualifiedResult]⟩ = []
         then "No results found for your query."
         else "No results found.") ∧
     firecrawl_websearch fcEnvUnqualResp "capital of France" ≠
       Except.ok "") :=
  ⟨⟨rfl, by decide⟩,
   no_results_two_sentinels fcEnvUnqualResp (some "fk") "capital of France"
     ⟨some [unqualifiedResult, unqualifiedResult, unqualifiedResult]⟩
     rfl rfl (by decide)⟩

/-- Claim C6: the sources extracted by the parsing loop are exactly the
url-citation annotations of the response in original emission order, and
the normalized text renders them, in that order, as the "- {title}: {url}"
lines of its "Sources:" block. -/
theorem sources_block_order (response : Response)
    (h : allCitations response ≠ []) :
    (parseResult response).sources = allCitations response ∧
    sourcesSection (agentSuccessDict (parseResult response)) =
      "Sources:\n" ++ String.join ((allCitations response).map sourceLine) ∧
    result_text (agentSuccessDict (parseResult response)) =
      answerSection (agentSuccessDict (parseResult response)) ++
      ("Sources:\n" ++ String.join ((allCitations response).map sourceLine)) ++
      queriesSection (agentSuccessDict (parseResult response)) ++
      usageSection (agentSuccessDict (parseResult response)) := by
  have h1 := parse_sources response
  have h2 : sourcesSection (agentSuccessDict (parseResult response)) =
      "Sources:\n" ++ String.join ((allCitations response).map sourceLine) := by
    simp [sourcesSection, agentSuccessDict, h1, h]
  refine ⟨h1, h2, ?_⟩
  rw [result_text, h2]

theorem sources_block_order_witness :
    allCitations respW ≠ [] ∧
    ((parseResult respW).sources = allCitations respW ∧
     sourcesSection (agentSuccessDict (parseResult respW)) =
       "Sources:\n" ++ String.join ((allCitations respW).map sourceLine) ∧
     result_text (agentSuccessDict (parseResult respW)) =
       answerSection (agentSuccessDict (parseResult respW)) ++
       ("Sources:\n" ++ String.join ((allCitations respW).map sourceLine)) ++
       queriesSection (agentSuccessDict (parseResult respW)) ++
       usageSection (agentSuccessDict (parseResult respW))) :=
  ⟨by decide, sources_block_order respW (by decide)⟩

/-- Claim C7: a successful Direct Search render keeps only the results
exposing content and joins, in result order and with blank-line
separators, one block per result — title (or "N/A"), URL falling back
from the canonical source URL through the secondary url field to "N/A",
and markdown content (or "No content") with a trailing ellipsis marker —
as captured by the claim-side block `c7SpecBlock`. -/
theorem direct_search_blocks (env : FcEnv) (k : Option String) (q : String)
    (resp : FcResponse)
    (hs : env.secret = Except.ok k) (hr : env.search k q = Except.ok resp)
    (hq : (fcWebResults resp).filter (fun r => r.mdAttr.isSome) ≠ []) :
    firecrawl_websearch env q =
      Except.ok (String.intercalate "\n\n"
        (((fcWebResults resp).filter (fun r => r.mdAttr.isSome)).map
          c7SpecBlock)) := by
  have hwr : fcWebResults resp ≠ [] := fun h => hq (by simp [h])
  obtain ⟨b, bs, hcons⟩ :
      ∃ b bs, (fcWebResults resp).filter (fun r => r.mdAttr.isSome) =
        b :: bs := by
    rcases hfil : (fcWebResults resp).filter (fun r => r.mdAttr.isSome) with
      _ | ⟨b, bs⟩
    · exact absurd hfil hq
    · exact ⟨b, bs, hfil⟩
  have hctx : String.intercalate "\n\n"
      (((fcWebResults resp).filter (fun r => r.mdAttr.isSome)).map fcBlock)
        ≠ "" := by
    rw [hcons, List.map_cons]
    exact intercalate_cons_ne_empty _ _ _ (fcBlock_ne_empty b)
  have hmap :
      ((fcWebResults resp).filter (fun r => r.mdAttr.isSome)).map fcBlock =
      ((fcWebResults resp).filter (fun r => r.mdAttr.isSome)).map
        c7SpecBlock := by
    simp [fcBlock_eq_spec]
  simp [firecrawl_websearch, fcAfterKey, hs, hr, fcFormat, hwr, ← hmap, hctx]

set_option maxRecDepth 4000 in
theorem direct_search_blocks_witness :
    (fcEnvScenario.secret = Except.ok (some "fk") ∧
     (fcWebResults ⟨some [parisResult, franceResult]⟩).filter
       (fun r => r.mdAttr.isSome) ≠ []) ∧
    firecrawl_websearch fcEnvScenario "capital of France" =
      Except.ok (String.intercalate "\n\n"
        (((fcWebResults ⟨some [parisResult, franceResult]⟩).filter
            (fun r => r.mdAttr.isSome)).map c7SpecBlock)) ∧
    firecrawl_websearch fcEnvScenario "capital of France" =
      Except.ok
        ("TITLE: Paris - Wikipedia\nURL: https://en.wikipedia.org/wiki/Paris\nMARKDOWN: Paris is the capital and largest city of France....\n\nTITLE: France Facts\nURL: https://example.com/france-facts\nMARKDOWN: France is a country in Western Europe....") :=
  ⟨⟨rfl, by decide⟩,
   direct_search_blocks fcEnvScenario (some "fk") "capital of France"
     ⟨some [parisResult, franceResult]⟩ rfl rfl (by decide),
   rfl⟩

/-- Claim C8: a button press with the empty query makes no provider call
and surfaces the warning view, and any rendering that did make a provider
call was a button press with a non-empty query. -/
theorem empty_query_no_call (env : ShellEnv) (sp : String) (b : Bool)
    (q : String) (v : ShellView)
    (h : render_results env sp b q = Except.ok v) :
    (b = true → q = "" → v = ⟨[], true, none⟩) ∧
    (v.calls ≠ [] → b = true ∧ q ≠ "") := by
  rw [render_results] at h
  by_cases hbq : b = true ∧ q ≠ ""
  · rw [if_pos hbq] at h
    exact ⟨fun _ hq => absurd hq hbq.2, fun _ => hbq⟩
  · rw [if_neg hbq] at h
    by_cases hbe : b = true ∧ q = ""
    · rw [if_pos hbe] at h
      obtain rfl : (⟨[], true, none⟩ : ShellView) = v := by
        injection h
      exact ⟨fun _ _ => rfl, fun hc => absurd rfl hc⟩
    · rw [if_neg hbe] at h
      obtain rfl : (⟨[], false, some placeholderText⟩ : ShellView) = v := by
        injection h
      exact ⟨fun hb hq => absurd ⟨hb, hq⟩ hbe, fun hc => absurd rfl hc⟩

theorem empty_query_no_call_witness :
    (render_results shellEnvW "OpenAI" true "" =
       Except.ok ⟨[], true, none⟩) ∧
    ((true = true → ("" : String) = "" →
        (⟨[], true, none⟩ : ShellView) = ⟨[], true, none⟩) ∧
     ((⟨[], true, none⟩ : ShellView).calls ≠ [] →
        true = true ∧ ("" : String) ≠ "")) :=
  ⟨rfl, empty_query_no_call shellEnvW "OpenAI" true "" ⟨[], true, none⟩ rfl⟩

/-- Claim C9: every request the Agentic Search provider passes to the
upstream service declares exactly one tool capability ("web_search"),
automatic tool choice, a cap of 5 tool invocations and serialized
(non-parallel) tool execution. -/
theorem agent_request_config (env : AgentEnv) (q : String)
    (ret : AgentReturn) (reqs : List AgentRequest) (req : AgentRequest)
    (h : agent_websearch env q = Except.ok (ret, reqs)) (hm : req ∈ reqs) :
    req.tools = ["web_search"] ∧ req.tools.length = 1 ∧
    req.tool_choice = "auto" ∧ req.max_tool_calls = 5 ∧
    req.parallel_tool_calls = false := by
  have hreq : req = agentRequest q := by
    unfold agent_websearch at h
    split at h
    · simp only [Except.ok.injEq, Prod.mk.injEq] at h
      rw [← h.2] at hm
      simp at hm
    · split at h
      · simp only [Except.ok.injEq, Prod.mk.injEq] at h
        rw [← h.2] at hm
        simp at hm
      · split at h <;>
        · simp only [Except.ok.injEq, Prod.mk.injEq] at h
          rw [← h.2] at hm
          simpa using hm
  subst hreq
  exact ⟨rfl, rfl, rfl, rfl, rfl⟩

theorem agent_request_config_witness :
    (agent_websearch agentEnvWithKey "hi" =
       Except.ok (AgentReturn.dict ⟨"", [], [], none, none⟩,
         [agentRequest "hi"]) ∧
     agentRequest "hi" ∈ [agentRequest "hi"]) ∧
    ((agentRequest "hi").tools = ["web_search"] ∧
     (agentRequest "hi").tools.length = 1 ∧
     (agentRequest "hi").tool_choice = "auto" ∧
     (agentRequest "hi").max_tool_calls = 5 ∧
     (agentRequest "hi").parallel_tool_calls = false) :=
  ⟨⟨rfl, List.mem_singleton_self _⟩,
   agent_request_config agentEnvWithKey "hi"
     (AgentReturn.dict ⟨"", [], [], none, none⟩) [agentRequest "hi"]
     (agentRequest "hi") rfl (List.mem_singleton_self _)⟩

end WebSearch
